import Mathlib

/-!
Verification of the support-ticket triage core.

Shallow embedding of the turn-processing pipeline of the triage service
(`src/app/graph.py`, `src/app/utils.py`, `src/app/schema.py`, `src/app/main.py`).
Strings are modelled as `List Char`; Python's ASCII-relevant string
operations (`str.upper`, `str.strip`, `str.replace(c, "")`, truthiness) are
given explicit executable models below, each annotated with the source line
it embeds.
-/

namespace Triage

/-- Model of Python `str.upper` on one character (ASCII range, the range the
ids and placeholder tokens live in). -/
def upperChar (c : Char) : Char :=
  if 97 ≤ c.toNat ∧ c.toNat ≤ 122 then Char.ofNat (c.toNat - 32) else c

/-- Model of Python `str.upper`: uppercase every character. -/
def pyUpper (l : List Char) : List Char := l.map upperChar

/-- Characters removed by Python `str.strip()` (ASCII whitespace). -/
def isPySpace (c : Char) : Bool :=
  c == ' ' || c == '\t' || c == '\n' || c == '\r' || c == '\x0b' || c == '\x0c'

/-- Model of Python `str.strip()`: drop leading and trailing whitespace. -/
def pyStrip (l : List Char) : List Char :=
  ((l.dropWhile isPySpace).reverse.dropWhile isPySpace).reverse

/-- Model of Python `s.replace(c, "")` for a one-character needle:
remove every occurrence of `c`. -/
def removeAll (c : Char) : List Char → List Char
  | [] => []
  | x :: xs => if x = c then removeAll c xs else x :: removeAll c xs

/-- `src/app/graph.py:69` — normalization applied to the id extracted from
the raw ticket text: `match.group(1).upper().replace(" ", "").replace("-", "")`. -/
def normalizeExtract (l : List Char) : List Char :=
  removeAll '-' (removeAll ' ' (pyUpper l))

/-- `src/app/utils.py:22` and `:25` — normalization used by `lookup_order` on
both sides of the comparison: `.replace('-', '').replace(' ', '').upper()`. -/
def clean_id (l : List Char) : List Char :=
  pyUpper (removeAll ' ' (removeAll '-' l))

theorem toNat_ofNat_valid {n : Nat} (h : n.isValidChar) : (Char.ofNat n).toNat = n := by
  rw [Char.ofNat, dif_pos h]
  rfl

theorem upperChar_toNat_of_lower {c : Char}
    (h : 97 ≤ c.toNat ∧ c.toNat ≤ 122) : (upperChar c).toNat = c.toNat - 32 := by
  have hvalid : (c.toNat - 32).isValidChar := Or.inl (by omega)
  simp only [upperChar, if_pos h]
  exact toNat_ofNat_valid hvalid

theorem upperChar_fix {c : Char} (h : ¬(97 ≤ c.toNat ∧ c.toNat ≤ 122)) :
    upperChar c = c := by
  unfold upperChar
  rw [if_neg h]

theorem upperChar_not_lower (c : Char) :
    ¬(97 ≤ (upperChar c).toNat ∧ (upperChar c).toNat ≤ 122) := by
  by_cases h : 97 ≤ c.toNat ∧ c.toNat ≤ 122
  · rw [upperChar_toNat_of_lower h]
    omega
  · rw [upperChar_fix h]
    exact h

/-- Uppercasing one character is idempotent. -/
theorem upperChar_idem (c : Char) : upperChar (upperChar c) = upperChar c :=
  upperChar_fix (upperChar_not_lower c)

theorem pyUpper_idem (l : List Char) : pyUpper (pyUpper l) = pyUpper l := by
  simp [pyUpper, List.map_map, Function.comp_def, upperChar_idem]

/-- `upperChar` maps a character to a non-letter `d` only if it already was
`d` (the uppercasing result range `A`–`Z` avoids `d`, and `d` is not itself
a lower-case letter). -/
theorem upperChar_eq_iff {d : Char} (hd1 : ¬(65 ≤ d.toNat ∧ d.toNat ≤ 90))
    (hd2 : ¬(97 ≤ d.toNat ∧ d.toNat ≤ 122)) (c : Char) : upperChar c = d ↔ c = d := by
  constructor
  · intro he
    by_cases h : 97 ≤ c.toNat ∧ c.toNat ≤ 122
    · exfalso
      have h2 := upperChar_toNat_of_lower h
      rw [he] at h2
      omega
    · rwa [upperChar_fix h] at he
  · intro he
    subst he
    exact upperChar_fix hd2

theorem removeAll_pyUpper_comm {d : Char}
    (hd1 : ¬(65 ≤ d.toNat ∧ d.toNat ≤ 90))
    (hd2 : ¬(97 ≤ d.toNat ∧ d.toNat ≤ 122)) (l : List Char) :
    removeAll d (pyUpper l) = pyUpper (removeAll d l) := by
  induction l with
  | nil => rfl
  | cons c cs ih =>
    by_cases h : c = d
    · subst h
      have h2 : upperChar c = c := upperChar_fix hd2
      simp only [pyUpper, List.map_cons, removeAll, h2, if_pos rfl]
      exact ih
    · have h2 : upperChar c ≠ d := fun he => h ((upperChar_eq_iff hd1 hd2 c).mp he)
      simp only [pyUpper, List.map_cons, removeAll, if_neg h, if_neg h2, List.map]
      exact congrArg (upperChar c :: ·) ih

theorem space_not_upper : ¬(65 ≤ (' ' : Char).toNat ∧ (' ' : Char).toNat ≤ 90) := by
  decide

theorem space_not_lower : ¬(97 ≤ (' ' : Char).toNat ∧ (' ' : Char).toNat ≤ 122) := by
  decide

theorem dash_not_upper : ¬(65 ≤ ('-' : Char).toNat ∧ ('-' : Char).toNat ≤ 90) := by
  decide

theorem dash_not_lower : ¬(97 ≤ ('-' : Char).toNat ∧ ('-' : Char).toNat ≤ 122) := by
  decide

theorem removeAll_comm (a b : Char) (l : List Char) :
    removeAll a (removeAll b l) = removeAll b (removeAll a l) := by
  induction l with
  | nil => rfl
  | cons x xs ih =>
    by_cases ha : x = a
    · subst ha
      by_cases hb : x = b
      · subst hb
        simp [removeAll, ih]
      · simp [removeAll, hb, ih]
    · by_cases hb : x = b
      · subst hb
        simp [removeAll, ha, ih]
      · simp [removeAll, ha, hb, ih]

theorem removeAll_idem (a : Char) (l : List Char) :
    removeAll a (removeAll a l) = removeAll a l := by
  induction l with
  | nil => rfl
  | cons x xs ih =>
    by_cases h : x = a <;> simp [removeAll, h, ih]

/-- The two normalizations in the source (`graph.py:69` and `utils.py:22/25`)
agree pointwise. -/
theorem normalizeExtract_eq_clean_id (l : List Char) :
    normalizeExtract l = clean_id l := by
  simp only [normalizeExtract, clean_id,
    removeAll_pyUpper_comm space_not_upper space_not_lower,
    removeAll_pyUpper_comm dash_not_upper dash_not_lower, removeAll_comm]

/-- `clean_id` is idempotent. -/
theorem clean_id_idem (l : List Char) : clean_id (clean_id l) = clean_id l := by
  simp only [clean_id,
    ← removeAll_pyUpper_comm space_not_upper space_not_lower,
    ← removeAll_pyUpper_comm dash_not_upper dash_not_lower,
    pyUpper_idem]
  rw [removeAll_comm ' ' '-', removeAll_idem, removeAll_comm '-' ' ', removeAll_idem]

/-! Section: Order-id resolution (`src/app/graph.py`, `classify_node`, lines 60–72) -/

/-- Python truthiness of an optional string: `None` and `""` are falsy. -/
def pyTruthy : Option (List Char) → Bool
  | none => false
  | some [] => false
  | some (_ :: _) => true

/-- `a == b` on `List Char`, as a helper for substring matching. -/
def isHeadOf : List Char → List Char → Bool
  | [], _ => true
  | _ :: _, [] => false
  | a :: as, b :: bs => a == b && isHeadOf as bs

/-- Python's `needle in hay` substring test. -/
def occursIn (needle : List Char) : List Char → Bool
  | [] => needle.isEmpty
  | c :: rest => isHeadOf needle (c :: rest) || occursIn needle rest

/-- `src/app/graph.py:63` — the fixed placeholder token list
`["N/A", "NONE", "NULL", "NOT PROVIDED", "UNKNOWN"]`. -/
def placeholders : List (List Char) :=
  ["N/A".data, "NONE".data, "NULL".data, "NOT PROVIDED".data, "UNKNOWN".data]

/-- `src/app/graph.py:62-63` — the classifier-reported candidate is discarded
when `any(x in clean_oid for x in placeholders)` where
`clean_oid = oid.strip().upper()`. Note this is a substring test, not an
equality test. -/
def candidateRejected (s : List Char) : Bool :=
  placeholders.any (fun t => occursIn t (pyUpper (pyStrip s)))

/-- Separator class of the regex `[-\s]` (a dash or whitespace). -/
def isSep (c : Char) : Bool := c == '-' || isPySpace c

/-- Attempt of the regex `(ORD[-\s]?\d+)` (case-insensitive, `re.IGNORECASE`)
anchored at the head of the list: the literal `ORD`, optionally one
separator when digits follow it, then a maximal run of digits. Returns the
matched characters in their original case, as `match.group(1)` does. -/
def ordMatchAt : List Char → Option (List Char)
  | o :: r :: d :: rest =>
    if upperChar o == 'O' && upperChar r == 'R' && upperChar d == 'D' then
      match rest with
      | [] => none
      | c :: rest2 =>
        if isSep c && (match rest2 with | x :: _ => x.isDigit | [] => false) then
          some (o :: r :: d :: c :: rest2.takeWhile Char.isDigit)
        else if c.isDigit then
          some (o :: r :: d :: (c :: rest2).takeWhile Char.isDigit)
        else none
    else none
  | _ => none

/-- `re.search(r"(ORD[-\s]?\d+)", text, re.IGNORECASE)`: the leftmost match
of the pattern in the text (`src/app/graph.py:67`). -/
def searchOrd : List Char → Option (List Char)
  | [] => none
  | c :: rest =>
    match ordMatchAt (c :: rest) with
    | some m => some m
    | none => searchOrd rest

/-- `src/app/graph.py:60-72` — the order-id resolver inside `classify_node`:
1. start from the classifier-reported candidate (`response.order_id`);
   if truthy and its stripped upper-cased form hits a placeholder token,
   drop it (lines 60-64);
2. if the candidate is falsy and the ticket text is truthy, search the text
   for the `ORD` pattern and normalize a match (lines 66-69);
3. if still falsy, fall back to the persisted `state.get("order_id")`
   (lines 71-72). -/
def resolve_order_id (candidate : Option (List Char)) (text : List Char)
    (persisted : Option (List Char)) : Option (List Char) :=
  let oid1 : Option (List Char) :=
    if pyTruthy candidate then
      match candidate with
      | some s => if candidateRejected s then none else some s
      | none => none
    else candidate
  let oid2 : Option (List Char) :=
    if !pyTruthy oid1 && !text.isEmpty then
      match searchOrd text with
      | some m => some (normalizeExtract m)
      | none => oid1
    else oid1
  if !pyTruthy oid2 then persisted else oid2

/-! Section: Structural lemmas about the resolver -/

theorem candidateRejected_nil : candidateRejected [] = false := by decide

/-- A truthy, non-rejected classifier candidate is returned verbatim. -/
theorem resolve_valid_candidate {c : List Char} (t : List Char) (p : Option (List Char))
    (hne : c ≠ []) (hrej : candidateRejected c = false) :
    resolve_order_id (some c) t p = some c := by
  obtain ⟨x, xs, rfl⟩ : ∃ x xs, c = x :: xs := by
    cases c with
    | nil => exact absurd rfl hne
    | cons x xs => exact ⟨x, xs, rfl⟩
  simp [resolve_order_id, pyTruthy, hrej]

/-- A rejected candidate behaves exactly like no candidate at all. -/
theorem resolve_rejected_candidate {c : List Char} (t : List Char) (p : Option (List Char))
    (hrej : candidateRejected c = true) :
    resolve_order_id (some c) t p = resolve_order_id none t p := by
  cases c with
  | nil => rw [candidateRejected_nil] at hrej; cases hrej
  | cons x xs => simp [resolve_order_id, pyTruthy, hrej]

theorem ordMatchAt_shape {l m : List Char} (h : ordMatchAt l = some m) :
    ∃ o tail, m = o :: tail ∧ upperChar o = 'O' := by
  unfold ordMatchAt at h
  split at h
  next o r d rest =>
    split at h
    next hc =>
      have ho : upperChar o = 'O' := by
        simp only [Bool.and_eq_true, beq_iff_eq] at hc
        exact hc.1.1
      split at h
      next => cases h
      next c rest2 =>
        split at h
        next => exact ⟨o, _, (Option.some.inj h).symm, ho⟩
        next =>
          split at h
          next => exact ⟨o, _, (Option.some.inj h).symm, ho⟩
          next => cases h
    next => cases h
  next => cases h

theorem searchOrd_shape {t m : List Char} (h : searchOrd t = some m) :
    ∃ o tail, m = o :: tail ∧ upperChar o = 'O' := by
  induction t with
  | nil => cases h
  | cons c rest ih =>
    unfold searchOrd at h
    split at h
    next m2 hm2 => exact (Option.some.inj h) ▸ ordMatchAt_shape hm2
    next => exact ih h

/-- The normalized form of a regex match is nonempty (it keeps its
leading `O`). -/
theorem removeAll_cons_of_ne {c x : Char} (h : ¬x = c) (l : List Char) :
    removeAll c (x :: l) = x :: removeAll c l := by
  rw [removeAll, if_neg h]

theorem normalizeExtract_of_match_ne_nil {t m : List Char}
    (h : searchOrd t = some m) : normalizeExtract m ≠ [] := by
  obtain ⟨o, tail, rfl, ho⟩ := searchOrd_shape h
  simp only [normalizeExtract, pyUpper, List.map_cons, ho,
    removeAll_cons_of_ne (by decide : ¬('O' : Char) = ' '),
    removeAll_cons_of_ne (by decide : ¬('O' : Char) = '-')]
  exact List.cons_ne_nil _ _

theorem searchOrd_ne_nil {t m : List Char} (h : searchOrd t = some m) : t ≠ [] := by
  intro hc
  subst hc
  cases h

/-- With no candidate, a text match resolves to the normalized match. -/
theorem resolve_text_match (t : List Char) (p : Option (List Char))
    {m : List Char} (hm : searchOrd t = some m) :
    resolve_order_id none t p = some (normalizeExtract m) := by
  obtain ⟨c, rest, rfl⟩ : ∃ c rest, t = c :: rest := by
    cases t with
    | nil => exact absurd rfl (searchOrd_ne_nil hm)
    | cons c rest => exact ⟨c, rest, rfl⟩
  have hne := normalizeExtract_of_match_ne_nil hm
  obtain ⟨y, ys, hy⟩ : ∃ y ys, normalizeExtract m = y :: ys := by
    cases he : normalizeExtract m with
    | nil => exact absurd he hne
    | cons y ys => exact ⟨y, ys, rfl⟩
  simp [resolve_order_id, pyTruthy, hm, hy]

/-- With no candidate and no text match, the persisted id is returned as-is. -/
theorem resolve_no_match (t : List Char) (p : Option (List Char))
    (hm : searchOrd t = none) : resolve_order_id none t p = p := by
  cases t with
  | nil => simp [resolve_order_id, pyTruthy]
  | cons c rest => simp [resolve_order_id, pyTruthy, hm]

/-! Section: Claim theorems -/

/-- C7 — Normalization is idempotent and case/format-insensitive: for every
string `x`, applying normalize (remove all dash and space characters,
upper-case) twice equals applying it once; the two normalization sites in the
source (`graph.py:69` and `utils.py:22/25`) agree pointwise; and
`normalize "ORD-123" = normalize "ord 123" = "ORD123"`. -/
theorem normalize_idempotent_and_insensitive :
    (∀ x : List Char, clean_id (clean_id x) = clean_id x)
    ∧ (∀ x : List Char, normalizeExtract (normalizeExtract x) = normalizeExtract x)
    ∧ (∀ x : List Char, normalizeExtract x = clean_id x)
    ∧ clean_id "ORD-123".data = "ORD123".data
    ∧ clean_id "ord 123".data = "ORD123".data
    ∧ normalizeExtract "ORD-123".data = "ORD123".data
    ∧ normalizeExtract "ord 123".data = "ORD123".data := by
  refine ⟨clean_id_idem, ?_, normalizeExtract_eq_clean_id, by decide, by decide, by decide, by decide⟩
  intro x
  rw [normalizeExtract_eq_clean_id, normalizeExtract_eq_clean_id, clean_id_idem]

/-- C2 counterexample — the claim says a candidate is discarded *exactly
when* its trimmed upper-cased form *equals* one of the five placeholder
tokens, so `"XNONE"`, equal to none of them, should count as a real id.
The code's check (`graph.py:63`) is a substring test: `"XNONE"` is discarded
and, with no other source, the resolver yields no id. -/
theorem placeholder_rejection_not_equality_cex :
    pyUpper (pyStrip "XNONE".data) ∉ placeholders
    ∧ resolve_order_id (some "XNONE".data) [] none = none := by
  exact ⟨by decide, by decide⟩

/-- C2 amended — a classifier-reported candidate (nonempty; an empty
candidate is falsy and skips the check entirely) is treated identically to no
id reported exactly when its trimmed, upper-cased form *contains* one of the
five tokens `N/A`, `NONE`, `NULL`, `NOT PROVIDED`, `UNKNOWN` as a substring;
otherwise it counts as a real id. -/
theorem placeholder_rejection_substring (c t : List Char) (p : Option (List Char))
    (hne : c ≠ []) :
    resolve_order_id (some c) t p =
      (if candidateRejected c then resolve_order_id none t p else some c)
    ∧ candidateRejected c =
        placeholders.any (fun tok => occursIn tok (pyUpper (pyStrip c))) := by
  refine ⟨?_, rfl⟩
  by_cases hr : candidateRejected c
  · rw [if_pos hr]
    exact resolve_rejected_candidate t p hr
  · rw [if_neg hr]
    exact resolve_valid_candidate t p hne (Bool.not_eq_true _ ▸ hr)

theorem placeholder_rejection_substring_witness :
    (resolve_order_id (some " none ".data) "use ORD 7".data none =
      (if candidateRejected " none ".data then resolve_order_id none "use ORD 7".data none
       else some " none ".data))
    ∧ candidateRejected " none ".data =
        placeholders.any (fun tok => occursIn tok (pyUpper (pyStrip " none ".data))) :=
  placeholder_rejection_substring " none ".data "use ORD 7".data none (by decide)

/-- C3 counterexample — the claim says every non-none resolver output
equals its own normalization. A classifier-reported candidate `"ord-123"`
(not a placeholder) is passed through verbatim: the output contains a dash
and lower-case letters, so it differs from its normalization. -/
theorem resolver_output_unnormalized_cex :
    resolve_order_id (some "ord-123".data) [] none = some "ord-123".data
    ∧ clean_id "ord-123".data ≠ "ord-123".data := by
  exact ⟨by decide, by decide⟩

/-- C3 amended — only the id extracted from the raw ticket text is
normalized: when no classifier candidate is present and the text matches the
id pattern, the resolved id is the normalized match and is a fixed point of
normalization; classifier-reported (and persisted) ids are passed through
verbatim. -/
theorem resolver_text_path_normalized (t : List Char) (p : Option (List Char))
    (m : List Char) (hm : searchOrd t = some m) :
    resolve_order_id none t p = some (normalizeExtract m)
    ∧ clean_id (normalizeExtract m) = normalizeExtract m := by
  refine ⟨resolve_text_match t p hm, ?_⟩
  rw [normalizeExtract_eq_clean_id, clean_id_idem]

theorem resolver_text_path_normalized_witness :
    resolve_order_id none "ref ORD-88".data none = some (normalizeExtract "ORD-88".data)
    ∧ clean_id (normalizeExtract "ORD-88".data) = normalizeExtract "ORD-88".data :=
  resolver_text_path_normalized "ref ORD-88".data none "ORD-88".data (by decide)

/-- C6 — resolver precedence: a truthy, non-rejected classifier candidate
wins verbatim over any text-extractable and any persisted id; when the
candidate is absent or rejected, a text match (normalized) is used; the
persisted id is used only when both of the former produce nothing. -/
theorem resolver_precedence (c t : List Char) (p : Option (List Char)) :
    (c ≠ [] → candidateRejected c = false →
      resolve_order_id (some c) t p = some c)
    ∧ (∀ m, searchOrd t = some m →
        resolve_order_id none t p = some (normalizeExtract m))
    ∧ (searchOrd t = none → resolve_order_id none t p = p)
    ∧ (∀ m, candidateRejected c = true → searchOrd t = some m →
        resolve_order_id (some c) t p = some (normalizeExtract m))
    ∧ (candidateRejected c = true → searchOrd t = none →
        resolve_order_id (some c) t p = p) := by
  refine ⟨fun hne hrej => resolve_valid_candidate t p hne hrej,
    fun m hm => resolve_text_match t p hm,
    fun hm => resolve_no_match t p hm,
    fun m hrej hm => ?_, fun hrej hm => ?_⟩
  · rw [resolve_rejected_candidate t p hrej]
    exact resolve_text_match t p hm
  · rw [resolve_rejected_candidate t p hrej]
    exact resolve_no_match t p hm

theorem resolver_precedence_witness :
    resolve_order_id (some "ORD-9".data) "go ORD 5".data (some "P1".data) = some "ORD-9".data
    ∧ resolve_order_id none "go ORD 5".data (some "P1".data) = some (normalizeExtract "ORD 5".data)
    ∧ resolve_order_id none [] (some "P1".data) = some "P1".data
    ∧ resolve_order_id (some "N/A".data) "go ORD 5".data (some "P1".data) =
        some (normalizeExtract "ORD 5".data)
    ∧ resolve_order_id (some "N/A".data) [] (some "P1".data) = some "P1".data := by
  refine ⟨(resolver_precedence "ORD-9".data "go ORD 5".data (some "P1".data)).1
      (by decide) (by decide),
    (resolver_precedence "X".data "go ORD 5".data (some "P1".data)).2.1 "ORD 5".data (by decide),
    (resolver_precedence "X".data [] (some "P1".data)).2.2.1 (by decide),
    (resolver_precedence "N/A".data "go ORD 5".data (some "P1".data)).2.2.2.1 "ORD 5".data
      (by decide) (by decide),
    (resolver_precedence "N/A".data [] (some "P1".data)).2.2.2.2 (by decide) (by decide)⟩

/-! Section: Graph wiring and routing (`src/app/graph.py`, lines 145–174) -/

/-- The nodes of the compiled LangGraph state graph, plus the implicit
`START` sentinel (`graph.py:154-156`). `END` is represented by the step
function returning `none`. -/
inductive Node where
  | start
  | classify
  | fetch_order
  | draft_reply
deriving DecidableEq, Repr

/-- `src/app/graph.py:145-148` — `route_ticket`: `fetch_order` when the
state's `order_id` is truthy, else `draft_reply`. -/
def route_ticket (oid : Option (List Char)) : Node :=
  if pyTruthy oid then .fetch_order else .draft_reply

/-- `src/app/graph.py:158-167` — the edges added to the builder:
`START → classify`, conditional `classify → route_ticket(state)`,
`fetch_order → draft_reply`, `draft_reply → END` (`none`). -/
def next_node : Node → Option (List Char) → Option Node
  | .start, _ => some .classify
  | .classify, oid => some (route_ticket oid)
  | .fetch_order, _ => some .draft_reply
  | .draft_reply, _ => none

/-- The node sequence obtained by following `next_node` from a node, with
fuel (the graph is finite and acyclic, so fuel 5 suffices from `START`). -/
def run_from : Nat → Node → Option (List Char) → List Node
  | 0, _, _ => []
  | n + 1, nd, oid =>
    nd :: (match next_node nd oid with
           | some nd2 => run_from n nd2 oid
           | none => [])

/-- The execution trace of one turn after classification, as a function of
the post-classification `order_id`. -/
def turn_trace (oid : Option (List Char)) : List Node := run_from 5 .start oid

theorem turn_trace_eq (o : Option (List Char)) : turn_trace o =
    (if pyTruthy o then [Node.start, .classify, .fetch_order, .draft_reply]
     else [.start, .classify, .draft_reply]) := by
  by_cases h : pyTruthy o
  · simp [turn_trace, run_from, next_node, route_ticket, h]
  · simp [turn_trace, run_from, next_node, route_ticket, h]

/-- C5 — router correctness: the lookup step runs before drafting iff an
order id is resolved (truthy) in the post-classification state; with no id,
drafting runs directly and the lookup step never runs; the lookup step, when
taken, is immediately followed by drafting; the trace is duplicate-free (no
loops) and has no other branches. Stated for every resolver outcome. -/
theorem router_correctness (c t : List Char) (p oid : Option (List Char)) :
    (Node.fetch_order ∈ turn_trace oid ↔ pyTruthy oid = true)
    ∧ turn_trace oid =
        (if pyTruthy oid then [.start, .classify, .fetch_order, .draft_reply]
         else [.start, .classify, .draft_reply])
    ∧ (turn_trace oid).Nodup
    ∧ (Node.fetch_order ∈ turn_trace (resolve_order_id c t p) ↔
        pyTruthy (resolve_order_id c t p) = true) := by
  refine ⟨?_, turn_trace_eq oid, ?_, ?_⟩
  · rw [turn_trace_eq oid]
    by_cases h : pyTruthy oid <;> simp [h]
  · rw [turn_trace_eq oid]
    by_cases h : pyTruthy oid <;> simp [h]
  · rw [turn_trace_eq (resolve_order_id c t p)]
    by_cases h : pyTruthy (resolve_order_id c t p) <;> simp [h]

/-! Section: Order repository and lookup (`src/app/utils.py`, lines 17–28) -/

/-- One record of `orders.json`: its `order_id` value (a record missing the
key reads as `""` via `order.get('order_id', '')`) and the remaining
key/value fields. Field values are modelled as strings; JSON escaping is not
needed for the properties below. -/
structure Order where
  order_id : List Char
  rest : List (List Char × List Char)
deriving DecidableEq, Repr

/-- Model of Python `str(x)` on an optional string: `str(None) = "None"`. -/
def pyStr : Option (List Char) → List Char
  | none => "None".data
  | some s => s

/-- `src/app/utils.py:17-28` — `lookup_order`: falsy ids short-circuit to
`None` before the repository is read; otherwise both the query and each
stored id are normalized with `clean_id` and the first record with an equal
normalized id is returned. The repository contents (`orders.json`) are a
parameter. -/
def lookup_order (db : List Order) (order_id : Option (List Char)) : Option Order :=
  if !pyTruthy order_id then none
  else
    let clean := clean_id (pyStr order_id)
    db.find? (fun o => clean_id o.order_id = clean)

/-- C10 — `lookup_order` is total on degenerate ids: a `None` or
empty-string `order_id` returns absent without scanning, for every possible
repository — so a missing id can never match any record. -/
theorem lookup_order_degenerate_total (db : List Order) :
    lookup_order db none = none ∧ lookup_order db (some []) = none := by
  exact ⟨rfl, rfl⟩

/-- C8 counterexample — the claim quantifies over *every* queried id.
For the empty query and a stored record whose id `"-"` normalizes to the
empty string, the two ids agree after normalization, yet the falsy-id guard
(`utils.py:18-19`) returns `None` without scanning: a miss despite
normalized agreement. -/
theorem lookup_normalization_insensitive_cex :
    clean_id "-".data = clean_id []
    ∧ lookup_order [⟨"-".data, []⟩] (some []) = none := by
  exact ⟨by decide, rfl⟩

/-- `true` iff `lookup_order` on query `q` returns a record whose stored id
agrees with `q` after normalization. -/
def foundNormalized (db : List Order) (q : List Char) : Bool :=
  match lookup_order db (some q) with
  | some r2 => clean_id r2.order_id = clean_id q
  | none => false

/-- C8 amended — for every *nonempty* queried id and every repository,
if some stored record's id agrees with the query after normalization
(strip dashes and spaces, upper-case both sides), the lookup succeeds and
returns a record whose id agrees with the query after normalization (the
first such record); formatting differences alone never cause a miss. -/
theorem lookup_normalization_insensitive (db : List Order) (r : Order)
    (q : List Char) (hq : q ≠ []) (hr : r ∈ db)
    (hagree : clean_id r.order_id = clean_id q) :
    foundNormalized db q = true := by
  obtain ⟨x, xs, rfl⟩ : ∃ x xs, q = x :: xs := by
    cases q with
    | nil => exact absurd rfl hq
    | cons x xs => exact ⟨x, xs, rfl⟩
  have htruthy : pyTruthy (some (x :: xs)) = true := rfl
  rw [foundNormalized, lookup_order]
  simp only [htruthy, Bool.not_true, Bool.false_eq_true, if_false, pyStr]
  have hex : ∃ o ∈ db, (fun o : Order => clean_id o.order_id = clean_id (x :: xs)) o :=
    ⟨r, hr, by simpa using hagree⟩
  cases hfind : db.find? (fun o => clean_id o.order_id = clean_id (x :: xs)) with
  | none =>
    rw [List.find?_eq_none] at hfind
    obtain ⟨o, ho, hpo⟩ := hex
    exact absurd (by simpa using hpo) (by simpa using hfind o ho)
  | some r2 =>
    have := List.find?_some hfind
    simpa using this

theorem lookup_normalization_insensitive_witness :
    foundNormalized [⟨"ORD-123".data, [("item".data, "lamp".data)]⟩] "ord 123".data = true :=
  lookup_normalization_insensitive [⟨"ORD-123".data, [("item".data, "lamp".data)]⟩]
    ⟨"ORD-123".data, [("item".data, "lamp".data)]⟩ "ord 123".data
    (by decide) (by decide) (by decide)

/-! Section: Order-lookup bridge (`src/app/graph.py`, lines 18–24 and 85–99) -/

/-- Transcript message roles; `tool_result` models a `ToolMessage`. -/
inductive Role where
  | user
  | agent
  | tool_result
deriving DecidableEq, Repr

/-- A transcript entry: role, content and, for tool results, the tool name
and the `tool_call_id` it answers. -/
structure Message where
  role : Role
  content : List Char
  toolName : Option (List Char) := none
  tool_call_id : Option (List Char) := none
deriving DecidableEq, Repr

/-- A JSON string literal (ids and field values in `orders.json` need no
escaping, so escaping is omitted). -/
def jsonStr (s : List Char) : List Char := '"' :: (s ++ ['"'])

/-- `json.dumps(order)` on a flat string-valued record, with the default
`", "` and `": "` separators; the `order_id` key is serialized first,
followed by the remaining fields in stored order. -/
def serializeOrder (o : Order) : List Char :=
  '\x7b' :: (jsonStr "order_id".data ++ ": ".data ++ jsonStr o.order_id
    ++ (o.rest.map (fun kv => ", ".data ++ jsonStr kv.1 ++ ": ".data ++ jsonStr kv.2)).flatten
    ++ ['\x7d'])

/-- `src/app/graph.py:24` — the not-found message of `fetch_order_tool`. -/
def notFoundMsg (order_id : List Char) : List Char :=
  "Order ID ".data ++ order_id ++ " not found in the database.".data

/-- `src/app/graph.py:18-24` — `fetch_order_tool`: serialize the record when
the lookup succeeds, otherwise the explicit not-found message. Total: it
never raises. -/
def fetch_order_tool (db : List Order) (order_id : List Char) : List Char :=
  match lookup_order db (some order_id) with
  | some o => serializeOrder o
  | none => notFoundMsg order_id

/-- `src/app/graph.py:85-99` — `fetch_order_node`: invoke the tool on
`str(order_id)` and append exactly one `ToolMessage` with
`name='fetch_order'` and `tool_call_id=f"call_{order_id}"`. -/
def fetch_order_node (db : List Order) (state_oid : Option (List Char)) : List Message :=
  [{ role := .tool_result,
     content := fetch_order_tool db (pyStr state_oid),
     toolName := some "fetch_order".data,
     tool_call_id := some ("call_".data ++ pyStr state_oid) }]

/-- C9 — a lookup miss is not an error: for every repository and every
resolved order id, the lookup step appends exactly one transcript entry
tagged as a tool result, whose content is the serialized record when one
matches and the explicit not-found message when none does, and the graph
edge after `fetch_order` always leads to `draft_reply`. -/
theorem lookup_miss_not_error (db : List Order) (oid : List Char) :
    (fetch_order_node db (some oid)).length = 1
    ∧ (∀ msg ∈ fetch_order_node db (some oid), msg.role = .tool_result)
    ∧ (lookup_order db (some oid) = none →
        fetch_order_node db (some oid) =
          [{ role := .tool_result, content := notFoundMsg oid,
             toolName := some "fetch_order".data,
             tool_call_id := some ("call_".data ++ oid) }])
    ∧ (∀ o, lookup_order db (some oid) = some o →
        fetch_order_node db (some oid) =
          [{ role := .tool_result, content := serializeOrder o,
             toolName := some "fetch_order".data,
             tool_call_id := some ("call_".data ++ oid) }])
    ∧ next_node .fetch_order (some oid) = some .draft_reply := by
  refine ⟨rfl, ?_, ?_, ?_, rfl⟩
  · intro msg hmsg
    simp only [fetch_order_node, List.mem_singleton] at hmsg
    rw [hmsg]
  · intro hnone
    simp [fetch_order_node, fetch_order_tool, pyStr, hnone]
  · intro o ho
    simp [fetch_order_node, fetch_order_tool, pyStr, ho]

theorem lookup_miss_not_error_witness :
    (fetch_order_node [⟨"ORD1".data, [("item".data, "lamp".data)]⟩] (some "ORD9".data) =
      [{ role := .tool_result, content := notFoundMsg "ORD9".data,
         toolName := some "fetch_order".data,
         tool_call_id := some ("call_".data ++ "ORD9".data) }])
    ∧ (fetch_order_node [⟨"ORD1".data, [("item".data, "lamp".data)]⟩] (some "ORD1".data) =
      [{ role := .tool_result,
         content := serializeOrder ⟨"ORD1".data, [("item".data, "lamp".data)]⟩,
         toolName := some "fetch_order".data,
         tool_call_id := some ("call_".data ++ "ORD1".data) }]) :=
  ⟨(lookup_miss_not_error [⟨"ORD1".data, [("item".data, "lamp".data)]⟩] "ORD9".data).2.2.1
      (by decide),
   (lookup_miss_not_error [⟨"ORD1".data, [("item".data, "lamp".data)]⟩] "ORD1".data).2.2.2.1
      ⟨"ORD1".data, [("item".data, "lamp".data)]⟩ (by decide)⟩

/-! Section: Issue-type taxonomy and classification decoding
(`src/app/schema.py`, `src/app/utils.py:37-38`) -/

/-- Modelled from the spec: `mock_data/issues.json` is not under `src/`; the
spec (§4.3 and Glossary) fixes the issue taxonomy it holds as
`defective_product`, `damaged_item`, `missing_item`, `late_delivery`,
`wrong_item`, `refund_request`, `duplicate_charge`, and
`get_issue_types` (`src/app/utils.py:37-38`) appends `other`. -/
inductive IssueType where
  | defective_product
  | damaged_item
  | missing_item
  | late_delivery
  | wrong_item
  | refund_request
  | duplicate_charge
  | other
deriving DecidableEq, Repr

/-- The enum value string of each issue-type (`src/app/schema.py:8-10`:
enum member values are the raw issue strings). -/
def issueValue : IssueType → List Char
  | .defective_product => "defective_product".data
  | .damaged_item => "damaged_item".data
  | .missing_item => "missing_item".data
  | .late_delivery => "late_delivery".data
  | .wrong_item => "wrong_item".data
  | .refund_request => "refund_request".data
  | .duplicate_charge => "duplicate_charge".data
  | .other => "other".data

def issueTypes : List IssueType :=
  [.defective_product, .damaged_item, .missing_item, .late_delivery,
   .wrong_item, .refund_request, .duplicate_charge, .other]

/-- Pydantic coercion of a raw string into the `IssueType` enum by value
(`src/app/schema.py:21-30`): succeeds exactly when the string is one of the
member values. -/
def decodeIssueType (s : List Char) : Option IssueType :=
  issueTypes.find? (fun t => issueValue t == s)

/-- The raw structured output of the classification capability as consumed
by `classify_node` (`src/app/graph.py:55-60`): an issue-type string and an
optional id candidate. -/
structure ClassifierRaw where
  issue_type : List Char
  order_id : Option (List Char)
deriving DecidableEq, Repr

structure TurnResult where
  issue_type : IssueType
  order_id : Option (List Char)
  nodes : List Node
deriving DecidableEq, Repr

/-- One turn of the compiled graph, given the raw structured output of the
classification capability. A raw issue-type outside the enumeration cannot
inhabit `ClassificationOutput` (`src/app/schema.py:21-30`), the validation
error propagates out of `classify_node` (`src/app/graph.py:55-58` has no
handler), and `src/app/main.py:121-125` surfaces it as a request-level
`Agent Error`. A decodable result proceeds through the resolver, the router
and drafting. -/
def run_turn (raw : ClassifierRaw) (ticket : List Char)
    (persisted : Option (List Char)) : Except (List Char) TurnResult :=
  match decodeIssueType raw.issue_type with
  | none => .error "Agent Error: issue_type not in enumeration".data
  | some t =>
      let oid := resolve_order_id raw.order_id ticket persisted
      .ok { issue_type := t, order_id := oid, nodes := turn_trace oid }

/-- C4 counterexample — the claim says an undecodable classification
result yields issue-type `other` and the pipeline still proceeds. For the
raw issue string `"gibberish"` (not a member of the enumeration) the turn
produces a request-level error instead of proceeding with `other`. -/
theorem undecodable_classification_fails_cex :
    decodeIssueType "gibberish".data = none
    ∧ run_turn ⟨"gibberish".data, none⟩ [] none =
        .error "Agent Error: issue_type not in enumeration".data := by
  exact ⟨rfl, rfl⟩

/-- C4 amended — a classification result that cannot be decoded into
the fixed issue-type enumeration fails the turn as a request-level error
(no routing or drafting occurs); `other` is an ordinary member value the
classifier itself may select, and every decodable result (including
`other`) proceeds to routing and drafting (the turn's node trace ends in
`draft_reply`). -/
theorem classification_decode_behavior (raw : ClassifierRaw) (ticket : List Char)
    (persisted : Option (List Char)) :
    (decodeIssueType raw.issue_type = none →
      run_turn raw ticket persisted =
        .error "Agent Error: issue_type not in enumeration".data)
    ∧ (∀ t, decodeIssueType raw.issue_type = some t →
        run_turn raw ticket persisted =
          .ok { issue_type := t,
                order_id := resolve_order_id raw.order_id ticket persisted,
                nodes := turn_trace (resolve_order_id raw.order_id ticket persisted) })
    ∧ (∀ r, run_turn raw ticket persisted = .ok r →
        r.nodes.getLast? = some .draft_reply)
    ∧ decodeIssueType "other".data = some .other := by
  refine ⟨?_, ?_, ?_, rfl⟩
  · intro h
    rw [run_turn, h]
  · intro t h
    rw [run_turn, h]
  · intro r h
    rw [run_turn] at h
    cases hd : decodeIssueType raw.issue_type with
    | none => rw [hd] at h; cases h
    | some t =>
      rw [hd] at h
      have hr : r.nodes = turn_trace (resolve_order_id raw.order_id ticket persisted) := by
        cases Except.ok.inj h
        rfl
      rw [hr, turn_trace_eq]
      by_cases ht : pyTruthy (resolve_order_id raw.order_id ticket persisted) <;> simp [ht]

theorem classification_decode_behavior_witness :
    run_turn ⟨"nonsense".data, none⟩ [] none =
      .error "Agent Error: issue_type not in enumeration".data
    ∧ run_turn ⟨"late_delivery".data, none⟩ "Where is my package?".data none =
        .ok { issue_type := .late_delivery,
              order_id := resolve_order_id none "Where is my package?".data none,
              nodes := turn_trace (resolve_order_id none "Where is my package?".data none) }
    ∧ (turn_trace (resolve_order_id none "Where is my package?".data none)).getLast?
        = some .draft_reply :=
  ⟨(classification_decode_behavior ⟨"nonsense".data, none⟩ [] none).1 (by decide),
   (classification_decode_behavior ⟨"late_delivery".data, none⟩
      "Where is my package?".data none).2.1 .late_delivery (by decide),
   (classification_decode_behavior ⟨"late_delivery".data, none⟩
      "Where is my package?".data none).2.2.1 _
      ((classification_decode_behavior ⟨"late_delivery".data, none⟩
        "Where is my package?".data none).2.1 .late_delivery (by decide))⟩

/-! Section: The HTTP turn endpoint (`src/app/main.py`, `triage_invoke`) -/

/-- The request body of `/triage/invoke` (`src/app/main.py:45-49`). -/
structure TriageInput where
  ticket_text : List Char
  order_id : Option (List Char)
  conversation_id : Option (List Char)
deriving DecidableEq, Repr

/-- `src/app/main.py:98-108` — thread-id derivation precedence: explicit
conversation id, else explicit order id, else an id pattern-matched from the
ticket text (normalized), else a freshly generated `uuid4` — modelled as
`none`, since a fresh opaque id implies no continuity with any other call. -/
def derive_thread_id (b : TriageInput) : Option (List Char) :=
  if pyTruthy b.conversation_id then b.conversation_id
  else if pyTruthy b.order_id then b.order_id
  else
    match searchOrd b.ticket_text with
    | some m => some (normalizeExtract m)
    | none => none

/-- `src/app/main.py:111-116` — the graph input state carries `order_id`
exactly when the explicit id of this call is truthy. -/
def graph_initial_oid (b : TriageInput) : Option (List Char) :=
  if pyTruthy b.order_id then b.order_id else none

/-- The resolved order id of one `/triage/invoke` call. The graph is
compiled WITHOUT a checkpointer (`src/app/graph.py:170-174`: the
`MemorySaver` and the `checkpointer=` argument are commented out), so
`graph.ainvoke(inputs, config)` (`src/app/main.py:119-122`) starts from
`inputs` alone: the `thread_id` in `config` loads no persisted session
state, and `classify_node`'s `state.get("order_id")` sees only the explicit
id supplied with this very call. -/
def triage_resolved_oid (b : TriageInput)
    (classifier_candidate : Option (List Char)) : Option (List Char) :=
  resolve_order_id classifier_candidate b.ticket_text (graph_initial_oid b)

/-- C1, the code evaluated at the failing input — two `/triage/invoke`
calls derive the same thread id `"CONV1"`; the first resolves `ORD4521`
from its ticket text; the second reports no classifier id and its ticket
text contains no id pattern, yet its resolved order-id is `none`, not the
first call's `ORD4521`: compiled without a checkpointer, the graph carries
no state from one call to the next. -/
theorem session_continuity_broken :
    derive_thread_id ⟨"My order ORD-4521 arrived broken".data, none, some "CONV1".data⟩
      = derive_thread_id ⟨"How long will that take?".data, none, some "CONV1".data⟩
    ∧ derive_thread_id ⟨"My order ORD-4521 arrived broken".data, none, some "CONV1".data⟩
      = some "CONV1".data
    ∧ triage_resolved_oid
        ⟨"My order ORD-4521 arrived broken".data, none, some "CONV1".data⟩ none
      = some "ORD4521".data
    ∧ searchOrd "How long will that take?".data = none
    ∧ triage_resolved_oid
        ⟨"How long will that take?".data, none, some "CONV1".data⟩ none
      = none := by
  exact ⟨by decide, by decide, by decide, by decide, by decide⟩

end Triage
